import Mathlib

/-!
Verification of rsaid: South African identity numbers

A shallow embedding of `main.go` (package `rsaid`) and the properties of its
checksum validation, field extraction and century inference.

Modelling conventions

* A Go `string` is its sequence of bytes: `GoString` is a list of byte values.
  `len(id)` is the list length, `id[i]` an element, `id[a:b]` a sub-list.
* A Go call that would panic at run time (index or slice out of range) yields
  `none`; every other outcome is `some` of the returned values.
* A Go `error` is `Option String`: `none` is `nil`, `some m` is
  `errors.New(m)`.
* Go `int` is 64 bits wide. No value computed here comes near that bound, so
  `Int` is used, with Go's truncating `/` and `%` (`Int.tdiv`, `Int.tmod`).
* `time.Now()` is the reference date, passed explicitly as `now`. A `Time` is
  kept at the granularity of its civil date (year, month, day of the common
  era); time of day and location are not observed by any caller.
-/

namespace Rsaid

/-! ## Go run-time and standard library -/

/-- A Go string, as the list of its bytes. -/
abbrev GoString := List Nat

/-- UTF-8 encoding of one code point, as Go performs it when converting a rune
to a string; an invalid code point is encoded as U+FFFD. -/
def encodeRune (r : Nat) : GoString :=
  if r < 0x80 then [r]
  else if r < 0x800 then [0xC0 + r / 64, 0x80 + r % 64]
  else if 0xD800 ≤ r ∧ r ≤ 0xDFFF ∨ 0x10FFFF < r then [0xEF, 0xBF, 0xBD]
  else if r < 0x10000 then [0xE0 + r / 4096, 0x80 + r / 64 % 64, 0x80 + r % 64]
  else [0xF0 + r / 262144, 0x80 + r / 4096 % 64, 0x80 + r / 64 % 64, 0x80 + r % 64]

/-- The bytes of a string literal. -/
def lit (s : String) : GoString :=
  s.data.flatMap fun c => encodeRune c.toNat

/-- Index expression `id[i]`; `none` when out of range. -/
def index (s : GoString) (i : Nat) : Option Nat :=
  if i < s.length then s.get? i else none

/-- Slice expression `id[lo:hi]`; `none` when out of range. -/
def slice (s : GoString) (lo hi : Nat) : Option GoString :=
  if lo ≤ hi ∧ hi ≤ s.length then some ((s.drop lo).take (hi - lo)) else none

/-- Whether a byte is one of `'0'`..`'9'`. -/
def isDigit (b : Nat) : Bool :=
  48 ≤ b && b ≤ 57

/-- Go's `strconv.Atoi` on a 64-bit platform: an optional sign followed by one
or more decimal digits. Returns the value and whether an error was reported;
the value is 0 on a syntax error and the nearest bound on a range error. -/
def Atoi (s : GoString) : Int × Bool :=
  let neg := s.head? == some 45
  let body := if s.head? == some 45 || s.head? == some 43 then s.tail else s
  if body.isEmpty then (0, true)
  else if body.all isDigit then
    let n : Nat := body.foldl (fun n ch => n * 10 + (ch - 48)) 0
    if neg then
      if n > 2 ^ 63 then (-(2 ^ 63 : Int), true) else (-(n : Int), false)
    else
      if n ≥ 2 ^ 63 then ((2 ^ 63 : Int) - 1, true) else ((n : Int), false)
  else (0, true)

/-- A `time.Time`, observed through `Year()`, `Month()` and `Day()`. -/
structure Time where
  year : Nat
  month : Nat
  day : Nat
deriving DecidableEq, Repr

/-- The zero `time.Time`: January 1, year 1. -/
def Time.zero : Time := ⟨1, 1, 1⟩

/-- Leap years of the proleptic Gregorian calendar, as in package `time`. -/
def isLeap (year : Int) : Bool :=
  year % 4 == 0 && (year % 100 != 0 || year % 400 == 0)

/-- Number of days of month `m` (1..12) in `year`, as in package `time`. -/
def daysIn (m : Int) (year : Int) : Int :=
  if m == 2 && isLeap year then 29
  else if m == 2 then 28
  else if m == 4 || m == 6 || m == 9 || m == 11 then 30
  else 31

/-- The call
`time.ParseInLocation("2006-01-02", fmt.Sprintf("%d-%02d-%02d", y, time.Month(m), d), loc)`
with `loc` the loaded location, on the three integers given to `Sprintf`.

`%d` prints `y` without padding and `%02d` prints `m` and `d` padded to at
least two characters (a `time.Month` under `%d` is printed as its number). The
layout reads exactly four digits for the year, a `-`, exactly two digits for
the month, a `-`, exactly two digits for the day, and nothing more: the text
matches only when `1000 ≤ y ≤ 9999`, `0 ≤ m ≤ 99` and `0 ≤ d ≤ 99`. The parser
then rejects a month outside 1..12 and a day outside 1..`daysIn`. `none` is a
non-nil error. -/
def ParseInLocation (y m d : Int) : Option Time :=
  if 1000 ≤ y ∧ y ≤ 9999 ∧ 0 ≤ m ∧ m ≤ 99 ∧ 0 ≤ d ∧ d ≤ 99 then
    if m ≤ 0 ∨ 12 < m then none
    else if d < 1 ∨ d > daysIn m y then none
    else some ⟨y.toNat, m.toNat, d.toNat⟩
  else none

/-! ## Package rsaid -/

/-- Result record of `Parse`. -/
structure Details where
  DOB : Time
  Gender : String
  Citizen : Bool
deriving DecidableEq, Repr

/-- The zero value `Details{}`. -/
def Details.zero : Details := ⟨Time.zero, "", false⟩

def errorMessage : String := "invalid south african id number"

/-- The loop of `IsValid`. The first argument is `i + 1` for the loop variable
`i`, so that `0` is the exit condition `i > -1` failing; `sum` and `alternate`
are the two local variables. -/
def IsValid.loop (id : GoString) : Nat → Int → Bool → Option Int
  | 0, sum, _ => some sum
  | i + 1, sum, alternate =>
    match index id i with
    | none => none
    | some b =>
      let mod := (Atoi (encodeRune b)).1
      let mod :=
        if alternate then
          if mod * 2 > 9 then (mod * 2).tmod 10 + 1 else mod * 2
        else mod
      IsValid.loop id i (sum + mod) (!alternate)

/-- Determines if the given ID number is valid using the Luhn algorithm. -/
def IsValid (id : GoString) : Option Bool :=
  let length := id.length
  if length ≠ 13 then some false
  else (IsValid.loop id length 0 false).map fun sum => sum.tmod 10 == 0

/-- Determines the gender of the person from the ID number. -/
def Gender (id : GoString) : Option (String × Option String) :=
  (IsValid id).bind fun valid =>
    if !valid then some ("", some errorMessage)
    else (slice id 6 7).bind fun s =>
      let gender := (Atoi s).1
      if gender < 5 then some ("female", none)
      else some ("male", none)

/-- Determines South African citizenship of the person from the ID number. -/
def IsCitizen (id : GoString) : Option (Bool × Option String) :=
  (IsValid id).bind fun valid =>
    if !valid then some (false, some errorMessage)
    else (slice id 10 11).bind fun citizenCode =>
      some (citizenCode == lit "0", none)

/-- The values of `ProvidedYear`, `ProvidedMonth` and `ProvidedDay` of
`BirthDate` once the century has been settled, for an id that passed
`IsValid`. -/
def BirthDate.provided (now : Time) (id : GoString) : Option (Int × Int × Int) :=
  let CurrentYear : Int := now.year
  let CurrentMonth : Int := now.month
  let CurrentDay : Int := now.day
  let CurrentCentury := (CurrentYear.tdiv 100) * 100
  (slice id 0 2).bind fun sy =>
    let ProvidedYear := CurrentCentury + (Atoi sy).1
    (slice id 2 4).bind fun sm =>
      let ProvidedMonth := (Atoi sm).1
      (slice id 4 6).bind fun sd =>
        let ProvidedDay := (Atoi sd).1
        let EligibleYear := CurrentYear - 16
        if ProvidedYear > EligibleYear ∨ (ProvidedYear = EligibleYear ∧
            (ProvidedMonth > CurrentMonth ∨
              ProvidedMonth = CurrentMonth ∧ ProvidedDay > CurrentDay)) then
          some (ProvidedYear - 100, ProvidedMonth, ProvidedDay)
        else
          some (ProvidedYear, ProvidedMonth, ProvidedDay)

/-- Determines the date of birth of the person from the ID number. -/
def BirthDate (now : Time) (id : GoString) : Option (Time × Option String) :=
  (IsValid id).bind fun valid =>
    if !valid then some (now, some errorMessage)
    else (BirthDate.provided now id).bind fun p =>
      match ParseInLocation p.1 p.2.1 p.2.2 with
      | none => some (now, some "cannot parse date of birth from id number")
      | some dob => some (dob, none)

/-- Parses a South African ID number to derive details from it. -/
def Parse (now : Time) (id : GoString) : Option (Details × Option String) :=
  (IsValid id).bind fun valid =>
    if !valid then some (Details.zero, some errorMessage)
    else (BirthDate now id).bind fun dob =>
      (Gender id).bind fun gender =>
        (IsCitizen id).bind fun citizen =>
          some (⟨dob.1, gender.1, citizen.1⟩, none)

/-- Whether date `a` is after date `b`, as `Time.After` decides it between two
civil dates. -/
def Time.after (a b : Time) : Prop :=
  a.year > b.year ∨ (a.year = b.year ∧
    (a.month > b.month ∨ (a.month = b.month ∧ a.day > b.day)))

instance (a b : Time) : Decidable (a.after b) := by
  unfold Time.after
  exact inferInstance

/-! ## Auxiliary functions describing the loop of `IsValid` -/

/-- What `strconv.Atoi` returns for the one-character string of byte `b` once
its error is discarded: the digit, or 0 for any other byte. -/
def digitVal (b : Nat) : Nat :=
  if isDigit b then b - 48 else 0

/-- The body of the loop of `IsValid` applied to a digit value `d`: doubled and
folded back below ten when `alternate` is set. -/
def luhnCode (alternate : Bool) (d : Nat) : Nat :=
  if alternate then (if d * 2 > 9 then d * 2 % 10 + 1 else d * 2) else d

/-- The sum accumulated by the loop of `IsValid` over the bytes in the order the
loop visits them (rightmost first), from a given state of `alternate`. -/
def luhnRev : List Nat → Bool → Nat
  | [], _ => 0
  | b :: t, alternate => luhnCode alternate (digitVal b) + luhnRev t (!alternate)

/-! ## The Luhn sum as the specification words it -/

/-- Contribution of the digit `d` at index `i` (0-indexed from the left) of a
13-digit number: unchanged at an even index; at an odd index the digit sum of
its double, `2d` if `2d ≤ 9` and `2d - 9` otherwise. -/
def luhnTerm (i d : Nat) : Nat :=
  if i % 2 = 0 then d else if 2 * d ≤ 9 then 2 * d else 2 * d - 9

/-- The Luhn sum of a 13-digit string, over indices 0..12. -/
def luhnSum (s : GoString) : Nat :=
  ((List.range 13).map fun i => luhnTerm i (s.getD i 48 - 48)).sum

/-! ## Birth-date fields as the specification words them -/

/-- The two-digit field of a digit string at indices `i` and `i + 1`, read as a
number 0..99. -/
def field (s : GoString) (i : Nat) : Nat :=
  10 * (s.getD i 48 - 48) + (s.getD (i + 1) 48 - 48)

/-- Century disambiguation for the reference date `(Y, M, D)` and the fields
`yy`, `mm`, `dd`: with `C = floor(Y / 100) * 100`, the year is `C + yy - 100`
if `C + yy > Y - 16`, or if `C + yy = Y - 16` and `(mm, dd)` is strictly after
`(M, D)` in lexicographic order; otherwise it is `C + yy`. -/
def resolvedYear (Y M D yy mm dd : Nat) : Int :=
  let C : Int := ((Y / 100 * 100 : Nat) : Int)
  if C + yy > (Y : Int) - 16 ∨ (C + yy = (Y : Int) - 16 ∧ (mm > M ∨ (mm = M ∧ dd > D))) then
    C + yy - 100
  else C + yy

/-! ## Calendar dates as the specification words them -/

/-- Leap years of the Gregorian calendar: divisible by 4, and not by 100 unless
also by 400. -/
def leapYear (y : Int) : Prop :=
  y % 4 = 0 ∧ (y % 100 ≠ 0 ∨ y % 400 = 0)

instance (y : Int) : Decidable (leapYear y) := by
  unfold leapYear
  exact inferInstance

/-- Number of days of month `m` in year `y`; 29 for February only in a leap
year, and 0 for a month outside 1..12. -/
def daysOfMonth (y : Int) (m : Nat) : Nat :=
  match m with
  | 1 => 31
  | 2 => if leapYear y then 29 else 28
  | 3 => 31
  | 4 => 30
  | 5 => 31
  | 6 => 30
  | 7 => 31
  | 8 => 31
  | 9 => 30
  | 10 => 31
  | 11 => 30
  | 12 => 31
  | _ => 0

/-- A valid Gregorian calendar date: the month is in 1..12 and the day in
1..(number of days of that month in that year). -/
def validDate (y : Int) (m d : Nat) : Prop :=
  1 ≤ m ∧ m ≤ 12 ∧ 1 ≤ d ∧ d ≤ daysOfMonth y m

instance (y : Int) (m d : Nat) : Decidable (validDate y m d) := by
  unfold validDate
  exact inferInstance

/-- Strict lexicographic order on dates given as (year, month, day). -/
def dateLt (y1 m1 d1 y2 m2 d2 : Int) : Prop :=
  y1 < y2 ∨ (y1 = y2 ∧ (m1 < m2 ∨ (m1 = m2 ∧ d1 < d2)))

/-- Lexicographic order on dates given as (year, month, day). -/
def dateLe (y1 m1 d1 y2 m2 d2 : Int) : Prop :=
  dateLt y1 m1 d1 y2 m2 d2 ∨ (y1 = y2 ∧ m1 = m2 ∧ d1 = d2)

instance (y1 m1 d1 y2 m2 d2 : Int) : Decidable (dateLt y1 m1 d1 y2 m2 d2) := by
  unfold dateLt
  exact inferInstance

instance (y1 m1 d1 y2 m2 d2 : Int) : Decidable (dateLe y1 m1 d1 y2 m2 d2) := by
  unfold dateLe
  exact inferInstance

/-! ## Lemmas on the standard library model -/

theorem Atoi_single (b : Nat) : Atoi [b] = (((digitVal b : Nat) : Int), !isDigit b) := by
  by_cases h45 : b = 45
  · subst h45; decide
  by_cases h43 : b = 43
  · subst h43; decide
  by_cases hd : isDigit b = true
  · have hd2 := hd
    simp only [isDigit, Bool.and_eq_true, decide_eq_true_eq] at hd2
    have hlt : ¬ (b - 48 ≥ 2 ^ 63) := by omega
    simp [Atoi, digitVal, hd, h45, h43, hlt]
    omega
  · simp [Atoi, digitVal, hd, h45, h43]

theorem Atoi_high_head (c : Nat) (t : GoString) (hc : 58 ≤ c) : (Atoi (c :: t)).1 = 0 := by
  have h1 : c ≠ 45 := by omega
  have h2 : c ≠ 43 := by omega
  have h3 : isDigit c = false := by simp [isDigit]; omega
  simp [Atoi, h1, h2, h3]

theorem Atoi_encodeRune (b : Nat) : (Atoi (encodeRune b)).1 = (digitVal b : Nat) := by
  unfold encodeRune
  split
  · rw [Atoi_single]
  · have hb : isDigit b = false := by simp [isDigit]; omega
    simp only [digitVal, hb]
    split
    · exact Atoi_high_head _ _ (by omega)
    · split
      · exact Atoi_high_head _ _ (by omega)
      · split
        · exact Atoi_high_head _ _ (by omega)
        · exact Atoi_high_head _ _ (by omega)

theorem tmod_ten_beq (n : Nat) :
    (((n : Int).tmod 10 == 0) : Bool) = decide (n % 10 = 0) := by
  rw [Int.tmod_eq_emod (by omega) (by omega)]
  by_cases h : n % 10 = 0
  · have : (n : Int) % 10 = 0 := by omega
    simp [h, this]
  · have : ¬ ((n : Int) % 10 = 0) := by omega
    simp [h, this]

/-! ## The loop of `IsValid` -/

theorem loop_succ (id : GoString) (i : Nat) (sum : Nat) (alternate : Bool) :
    IsValid.loop id (i + 1) (sum : Int) alternate =
      (index id i).bind fun b =>
        IsValid.loop id i ((sum + luhnCode alternate (digitVal b) : Nat) : Int)
          (!alternate) := by
  rw [IsValid.loop]
  cases hidx : index id i with
  | none => rfl
  | some b =>
    simp only [Option.bind, Atoi_encodeRune]
    congr 1
    cases alternate
    · simp [luhnCode]
    · have h : (((digitVal b : Nat) : Int) * 2).tmod 10
          = ((digitVal b * 2 % 10 : Nat) : Int) := by
        rw [Int.tmod_eq_emod (by omega) (by omega)]; omega
      simp only [luhnCode, if_true, h]
      split_ifs <;> push_cast <;> omega

theorem loop_eq (id : GoString) (n : Nat) (hn : n ≤ id.length) (sum : Nat)
    (alternate : Bool) :
    IsValid.loop id n (sum : Int) alternate =
      some ((sum + luhnRev (id.take n).reverse alternate : Nat) : Int) := by
  induction n generalizing sum alternate with
  | zero => simp [IsValid.loop, luhnRev]
  | succ k ih =>
    have hk : k < id.length := hn
    have hidx : index id k = some (id.get ⟨k, hk⟩) := by
      simp [index, hk]
    rw [loop_succ, hidx]
    simp only [Option.bind]
    rw [ih (by omega)]
    have ht : (id.take (k + 1)).reverse = id.get ⟨k, hk⟩ :: (id.take k).reverse := by
      rw [List.take_succ]
      simp [List.getElem?_eq_getElem hk]
    rw [ht]
    simp only [luhnRev]
    congr 2
    omega

/-- The result of `IsValid` in closed form: it never panics, and accepts exactly
the strings of 13 bytes whose accumulated sum is a multiple of ten. -/
theorem IsValid_eq (id : GoString) :
    IsValid id = some (decide (id.length = 13 ∧ luhnRev id.reverse false % 10 = 0)) := by
  unfold IsValid
  by_cases h : id.length = 13
  · have hl := loop_eq id id.length (le_refl _) 0 false
    rw [show ((0 : Nat) : Int) = 0 from rfl, List.take_length, Nat.zero_add] at hl
    simp only [h, ne_eq, not_true_eq_false, if_false, true_and]
    rw [← h, hl]
    simp only [Option.map, tmod_ten_beq]
  · simp [h]

theorem exists_thirteen {s : GoString} (h : s.length = 13) :
    ∃ b0 b1 b2 b3 b4 b5 b6 b7 b8 b9 b10 b11 b12,
      s = [b0, b1, b2, b3, b4, b5, b6, b7, b8, b9, b10, b11, b12] := by
  match s, h with
  | [b0, b1, b2, b3, b4, b5, b6, b7, b8, b9, b10, b11, b12], _ =>
    exact ⟨b0, b1, b2, b3, b4, b5, b6, b7, b8, b9, b10, b11, b12, rfl⟩

theorem length_of_valid {id : GoString} (h : IsValid id = some true) : id.length = 13 := by
  rw [IsValid_eq] at h
  simp only [Option.some.injEq, decide_eq_true_eq] at h
  exact h.1

theorem luhnCode_even (b : Nat) (hb : isDigit b = true) (i : Nat) (hi : i % 2 = 0) :
    luhnCode false (digitVal b) = luhnTerm i (b - 48) := by
  simp [luhnCode, luhnTerm, digitVal, hb, hi]

theorem luhnCode_odd (b : Nat) (hb : isDigit b = true) (i : Nat) (hi : i % 2 = 1) :
    luhnCode true (digitVal b) = luhnTerm i (b - 48) := by
  have hd := hb
  simp only [isDigit, Bool.and_eq_true, decide_eq_true_eq] at hb
  have hi0 : ¬ (i % 2 = 0) := by omega
  simp only [luhnCode, luhnTerm, digitVal, hd, if_true, hi0, if_false]
  split_ifs <;> omega

/-! ## Checksum validation -/

/-- C1: on a string of exactly 13 decimal digits, IsValid returns true if and
only if the Luhn sum (digits at even indices unchanged, digits at odd indices
replaced by the digit sum of their double) is divisible by 10. -/
theorem IsValid_iff_luhnSum (id : GoString) (hlen : id.length = 13)
    (hdig : ∀ b ∈ id, isDigit b = true) :
    IsValid id = some true ↔ luhnSum id % 10 = 0 := by
  obtain ⟨b0, b1, b2, b3, b4, b5, b6, b7, b8, b9, b10, b11, b12, rfl⟩ := exists_thirteen hlen
  simp only [List.mem_cons, List.mem_singleton, forall_eq_or_imp, forall_eq] at hdig
  obtain ⟨h0, h1, h2, h3, h4, h5, h6, h7, h8, h9, h10, h11, h12, -⟩ := hdig
  rw [IsValid_eq]
  simp only [List.reverse_cons, List.reverse_nil, List.nil_append, List.cons_append,
    List.singleton_append, luhnRev, Bool.not_false, Bool.not_true, List.length_cons,
    List.length_nil, luhnSum, List.range, List.range.loop, List.map_cons, List.map_nil,
    List.sum_cons, List.sum_nil, List.getD_cons_zero, List.getD_cons_succ]
  rw [luhnCode_even b12 h12 12 rfl, luhnCode_odd b11 h11 11 rfl, luhnCode_even b10 h10 10 rfl,
    luhnCode_odd b9 h9 9 rfl, luhnCode_even b8 h8 8 rfl, luhnCode_odd b7 h7 7 rfl,
    luhnCode_even b6 h6 6 rfl, luhnCode_odd b5 h5 5 rfl, luhnCode_even b4 h4 4 rfl,
    luhnCode_odd b3 h3 3 rfl, luhnCode_even b2 h2 2 rfl, luhnCode_odd b1 h1 1 rfl,
    luhnCode_even b0 h0 0 rfl]
  simp only [Option.some.injEq, decide_eq_true_eq, true_and]
  omega

/-- Witness for C1 at the valid test number 9506245120008, whose Luhn sum is a
multiple of ten. -/
theorem IsValid_iff_luhnSum_witness :
    (lit "9506245120008").length = 13 ∧
    (∀ b ∈ lit "9506245120008", isDigit b = true) ∧
    luhnSum (lit "9506245120008") = 40 ∧
    (IsValid (lit "9506245120008") = some true ↔ luhnSum (lit "9506245120008") % 10 = 0) :=
  ⟨by decide, by decide, by decide,
    IsValid_iff_luhnSum (lit "9506245120008") (by decide) (by decide)⟩

/-- C2: a string of 13 bytes with a character that is not a decimal digit is
accepted by IsValid: in 95a6245120008 the letter counts as the digit 0, because
the error of the digit conversion is discarded. -/
theorem IsValid_accepts_non_digit :
    (lit "95a6245120008").length = 13 ∧
    (∃ b ∈ lit "95a6245120008", isDigit b = false) ∧
    IsValid (lit "95a6245120008") = some true := by
  decide

/-- C3: IsValid returns false on every string whose length is not 13. -/
theorem IsValid_length_ne (id : GoString) (hlen : id.length ≠ 13) :
    IsValid id = some false := by
  simp [IsValid, hlen]

/-- Witness for C3 at the empty string and at the short test input 950624. -/
theorem IsValid_length_ne_witness :
    (lit "").length ≠ 13 ∧ IsValid (lit "") = some false ∧
    (lit "950624").length ≠ 13 ∧ IsValid (lit "950624") = some false :=
  ⟨by decide, IsValid_length_ne (lit "") (by decide),
    by decide, IsValid_length_ne (lit "950624") (by decide)⟩

theorem luhnCode_inj (a : Bool) (b c : Nat) (hb : isDigit b = true) (hc : isDigit c = true)
    (hne : b ≠ c) :
    luhnCode a (digitVal b) % 10 ≠ luhnCode a (digitVal c) % 10 := by
  have hb2 := hb
  have hc2 := hc
  simp only [isDigit, Bool.and_eq_true, decide_eq_true_eq] at hb2 hc2
  simp only [luhnCode, digitVal, hb, hc, if_true]
  cases a
  · simp only [Bool.false_eq_true, if_false]; omega
  · simp only [if_true]; split_ifs <;> omega

/-- C4: the checksum detects single-digit errors. In a string of 13 decimal
digits accepted by IsValid, replacing the digit at any one position by a
different decimal digit gives a string that IsValid rejects. -/
theorem IsValid_single_digit_error (id : GoString) (hlen : id.length = 13)
    (hdig : ∀ b ∈ id, isDigit b = true) (hvalid : IsValid id = some true)
    (i : Nat) (hi : i < 13) (c : Nat) (hc : isDigit c = true) (hne : id[i]? ≠ some c) :
    IsValid (id.set i c) = some false := by
  obtain ⟨b0, b1, b2, b3, b4, b5, b6, b7, b8, b9, b10, b11, b12, rfl⟩ := exists_thirteen hlen
  simp only [List.mem_cons, List.mem_singleton, forall_eq_or_imp, forall_eq] at hdig
  obtain ⟨h0, h1, h2, h3, h4, h5, h6, h7, h8, h9, h10, h11, h12, -⟩ := hdig
  rw [IsValid_eq] at hvalid ⊢
  simp only [List.reverse_cons, List.reverse_nil, List.nil_append, List.cons_append,
    List.singleton_append, luhnRev, Bool.not_false, Bool.not_true, List.length_cons,
    List.length_nil, Option.some.injEq, decide_eq_true_eq, true_and] at hvalid
  interval_cases i <;>
    simp only [List.getElem?_cons_zero, List.getElem?_cons_succ, ne_eq, Option.some.injEq] at hne <;>
    simp only [List.set_cons_zero, List.set_cons_succ, List.reverse_cons, List.reverse_nil,
      List.nil_append, List.cons_append, List.singleton_append, luhnRev, Bool.not_false,
      Bool.not_true, List.length_cons, List.length_nil, Option.some.injEq, decide_eq_false_iff_not,
      true_and]
  · have k := luhnCode_inj false b0 c h0 hc hne
    omega
  · have k := luhnCode_inj true b1 c h1 hc hne
    omega
  · have k := luhnCode_inj false b2 c h2 hc hne
    omega
  · have k := luhnCode_inj true b3 c h3 hc hne
    omega
  · have k := luhnCode_inj false b4 c h4 hc hne
    omega
  · have k := luhnCode_inj true b5 c h5 hc hne
    omega
  · have k := luhnCode_inj false b6 c h6 hc hne
    omega
  · have k := luhnCode_inj true b7 c h7 hc hne
    omega
  · have k := luhnCode_inj false b8 c h8 hc hne
    omega
  · have k := luhnCode_inj true b9 c h9 hc hne
    omega
  · have k := luhnCode_inj false b10 c h10 hc hne
    omega
  · have k := luhnCode_inj true b11 c h11 hc hne
    omega
  · have k := luhnCode_inj false b12 c h12 hc hne
    omega

/-- Witness for C4: 9506245120008 is accepted, and changing its last digit to 9
gives 9506245120009, which is rejected. -/
theorem IsValid_single_digit_error_witness :
    IsValid (lit "9506245120008") = some true ∧
    (lit "9506245120008").set 12 57 = lit "9506245120009" ∧
    IsValid ((lit "9506245120008").set 12 57) = some false :=
  ⟨by decide, by decide,
    IsValid_single_digit_error (lit "9506245120008") (by decide) (by decide) (by decide)
      12 (by decide) 57 (by decide) (by decide)⟩

/-! ## Field extraction -/

theorem Gender_valid (id : GoString) (h : IsValid id = some true) :
    Gender id = some (if digitVal (id.getD 6 0) < 5 then "female" else "male", none) := by
  obtain ⟨b0, b1, b2, b3, b4, b5, b6, b7, b8, b9, b10, b11, b12, rfl⟩ :=
    exists_thirteen (length_of_valid h)
  have hs : slice [b0, b1, b2, b3, b4, b5, b6, b7, b8, b9, b10, b11, b12] 6 7 = some [b6] := rfl
  simp only [Gender, h, hs, Option.bind, Bool.not_true, Bool.false_eq_true, if_false,
    Atoi_single, List.getD_cons_succ, List.getD_cons_zero]
  split_ifs <;> first | rfl | omega

theorem IsCitizen_valid (id : GoString) (h : IsValid id = some true) :
    IsCitizen id = some (decide (id[10]? = some 48), none) := by
  obtain ⟨b0, b1, b2, b3, b4, b5, b6, b7, b8, b9, b10, b11, b12, rfl⟩ :=
    exists_thirteen (length_of_valid h)
  have hs : slice [b0, b1, b2, b3, b4, b5, b6, b7, b8, b9, b10, b11, b12] 10 11 = some [b10] :=
    rfl
  have hl : lit "0" = [48] := by decide
  simp only [IsCitizen, h, hs, hl, Option.bind, Bool.not_true, Bool.false_eq_true, if_false,
    List.getElem?_cons_succ, List.getElem?_cons_zero, Option.some.injEq]
  by_cases hb : b10 = 48 <;> simp [hb]

/-- C5: on an id that IsValid rejects, Gender, IsCitizen and BirthDate each
return the error "invalid south african id number"; on an id that IsValid
accepts, Gender and IsCitizen return no error. IsValid itself always returns. -/
theorem extractors_invalid_identity (now : Time) (id : GoString) :
    (IsValid id = some false ∨ IsValid id = some true) ∧
    (IsValid id = some false →
      Gender id = some ("", some "invalid south african id number") ∧
      IsCitizen id = some (false, some "invalid south african id number") ∧
      BirthDate now id = some (now, some "invalid south african id number")) ∧
    (IsValid id = some true →
      (∃ g, Gender id = some (g, none)) ∧ (∃ c, IsCitizen id = some (c, none))) := by
  refine ⟨?_, ?_, ?_⟩
  · rw [IsValid_eq]
    by_cases h : id.length = 13 ∧ luhnRev id.reverse false % 10 = 0 <;> simp [h]
  · intro h
    simp [Gender, IsCitizen, BirthDate, h, errorMessage]
  · intro h
    exact ⟨⟨_, Gender_valid id h⟩, ⟨_, IsCitizen_valid id h⟩⟩

/-- Witness for C5: the rejected number 9506245120009 and the short input
950624 give the invalid-identity error, the accepted number 9506245120008 gives
no error. -/
theorem extractors_invalid_identity_witness :
    IsValid (lit "9506245120009") = some false ∧
    (Gender (lit "9506245120009") = some ("", some "invalid south african id number") ∧
      IsCitizen (lit "9506245120009") = some (false, some "invalid south african id number") ∧
      BirthDate ⟨2026, 11, 4⟩ (lit "9506245120009")
        = some (⟨2026, 11, 4⟩, some "invalid south african id number")) ∧
    IsValid (lit "9506245120008") = some true ∧
    ((∃ g, Gender (lit "9506245120008") = some (g, none)) ∧
      (∃ c, IsCitizen (lit "9506245120008") = some (c, none))) :=
  ⟨by decide,
    (extractors_invalid_identity ⟨2026, 11, 4⟩ (lit "9506245120009")).2.1 (by decide),
    by decide,
    (extractors_invalid_identity ⟨2026, 11, 4⟩ (lit "9506245120008")).2.2 (by decide)⟩

/-- C6: on an id that IsValid rejects, Parse returns the error "invalid south
african id number" together with the zero-value Details. -/
theorem Parse_invalid (now : Time) (id : GoString) (h : IsValid id = some false) :
    Parse now id
      = some (⟨⟨1, 1, 1⟩, "", false⟩, some "invalid south african id number") := by
  simp [Parse, h, errorMessage, Details.zero, Time.zero]

/-- Witness for C6 at 9506245120009, the valid test number with its last digit
altered. -/
theorem Parse_invalid_witness :
    IsValid (lit "9506245120009") = some false ∧
    Parse ⟨2026, 11, 4⟩ (lit "9506245120009")
      = some (⟨⟨1, 1, 1⟩, "", false⟩, some "invalid south african id number") :=
  ⟨by decide, Parse_invalid ⟨2026, 11, 4⟩ (lit "9506245120009") (by decide)⟩

/-- C7: on a string of 13 decimal digits that IsValid accepts, Gender returns
"female" with no error when the digit at index 6 is in 0..4 and "male" with no
error when it is in 5..9. -/
theorem Gender_of_seventh_digit (id : GoString) (hdig : ∀ b ∈ id, isDigit b = true)
    (hvalid : IsValid id = some true) :
    ∃ d, d ≤ 9 ∧ id[6]? = some (48 + d) ∧
      (d ≤ 4 → Gender id = some ("female", none)) ∧
      (5 ≤ d → Gender id = some ("male", none)) := by
  have hg := Gender_valid id hvalid
  obtain ⟨b0, b1, b2, b3, b4, b5, b6, b7, b8, b9, b10, b11, b12, rfl⟩ :=
    exists_thirteen (length_of_valid hvalid)
  have h6 : isDigit b6 = true := hdig b6 (by simp)
  have h6b := h6
  simp only [isDigit, Bool.and_eq_true, decide_eq_true_eq] at h6b
  simp only [List.getD_cons_succ, List.getD_cons_zero, digitVal, h6, if_true] at hg
  refine ⟨b6 - 48, by omega, ?_, ?_, ?_⟩
  · simp only [List.getElem?_cons_succ, List.getElem?_cons_zero, Option.some.injEq]
    omega
  · intro hd
    rw [hg, if_pos (by omega)]
  · intro hd
    rw [hg, if_neg (by omega)]

/-- Witness for C7: Gender is male for 9506245120008 (7th digit 5) and female
for 9506244120009 (7th digit 4). -/
theorem Gender_of_seventh_digit_witness :
    (∃ d, d ≤ 9 ∧ (lit "9506245120008")[6]? = some (48 + d) ∧
      (d ≤ 4 → Gender (lit "9506245120008") = some ("female", none)) ∧
      (5 ≤ d → Gender (lit "9506245120008") = some ("male", none))) ∧
    Gender (lit "9506245120008") = some ("male", none) ∧
    Gender (lit "9506244120009") = some ("female", none) :=
  ⟨Gender_of_seventh_digit (lit "9506245120008") (by decide) (by decide), by decide, by decide⟩

/-- C8: on an id that IsValid accepts, IsCitizen returns no error, and returns
true if and only if the character at index 10 is exactly the digit 0. -/
theorem IsCitizen_of_eleventh_digit (id : GoString) (hvalid : IsValid id = some true) :
    IsCitizen id = some (decide (id[10]? = some 48), none) :=
  IsCitizen_valid id hvalid

/-- Witness for C8: IsCitizen is true for 9506245120008 (11th digit 0) and
false for 9506245120107 (11th digit 1). -/
theorem IsCitizen_of_eleventh_digit_witness :
    IsValid (lit "9506245120008") = some true ∧
    IsCitizen (lit "9506245120008") = some (true, none) ∧
    IsValid (lit "9506245120107") = some true ∧
    IsCitizen (lit "9506245120107") = some (false, none) :=
  ⟨by decide, IsCitizen_of_eleventh_digit (lit "9506245120008") (by decide),
    by decide, IsCitizen_of_eleventh_digit (lit "9506245120107") (by decide)⟩

/-! ## Birth date -/

theorem Atoi_two_digits (a b : Nat) (ha : a ≤ 9) (hb : b ≤ 9) :
    (Atoi [48 + a, 48 + b]).1 = ((10 * a + b : Nat) : Int) := by
  have h1 : ¬ (48 + a = 45) := by omega
  have h2 : ¬ (48 + a = 43) := by omega
  have h3 : isDigit (48 + a) = true := by simp [isDigit]; omega
  have h4 : isDigit (48 + b) = true := by simp [isDigit]; omega
  simp [Atoi, h1, h2, h3, h4]
  split_ifs with h
  · omega
  · simp only; omega

theorem digit_split {b : Nat} (h : isDigit b = true) : ∃ a, b = 48 + a ∧ a ≤ 9 := by
  simp only [isDigit, Bool.and_eq_true, decide_eq_true_eq] at h
  exact ⟨b - 48, by omega, by omega⟩

theorem ParseInLocation_some {y m d : Int} {t : Time} (h : ParseInLocation y m d = some t) :
    (t.year : Int) = y ∧ (t.month : Int) = m ∧ (t.day : Int) = d := by
  unfold ParseInLocation at h
  split_ifs at h with h1 h2 h3
  simp only [Option.some.injEq] at h
  subst h
  exact ⟨Int.toNat_of_nonneg (by omega), Int.toNat_of_nonneg (by omega),
    Int.toNat_of_nonneg (by omega)⟩


theorem provided_thirteen (now : Time) (y1 y2 m1 m2 d1 d2 b6 b7 b8 b9 b10 b11 b12 : Nat)
    (hy1 : y1 ≤ 9) (hy2 : y2 ≤ 9) (hm1 : m1 ≤ 9) (hm2 : m2 ≤ 9) (hd1 : d1 ≤ 9) (hd2 : d2 ≤ 9) :
    BirthDate.provided now [48 + y1, 48 + y2, 48 + m1, 48 + m2, 48 + d1, 48 + d2, b6,
      b7, b8, b9, b10, b11, b12] =
      some (resolvedYear now.year now.month now.day (10 * y1 + y2) (10 * m1 + m2) (10 * d1 + d2),
        ((10 * m1 + m2 : Nat) : Int), ((10 * d1 + d2 : Nat) : Int)) := by
  have hs0 : slice [48 + y1, 48 + y2, 48 + m1, 48 + m2, 48 + d1, 48 + d2, b6, b7, b8, b9, b10,
      b11, b12] 0 2 = some [48 + y1, 48 + y2] := rfl
  have hs2 : slice [48 + y1, 48 + y2, 48 + m1, 48 + m2, 48 + d1, 48 + d2, b6, b7, b8, b9, b10,
      b11, b12] 2 4 = some [48 + m1, 48 + m2] := rfl
  have hs4 : slice [48 + y1, 48 + y2, 48 + m1, 48 + m2, 48 + d1, 48 + d2, b6, b7, b8, b9, b10,
      b11, b12] 4 6 = some [48 + d1, 48 + d2] := rfl
  have hc : (now.year : Int).tdiv 100 = ((now.year / 100 : Nat) : Int) :=
    (Int.ofNat_tdiv now.year 100).symm
  simp only [BirthDate.provided, hs0, hs2, hs4, Option.bind, Atoi_two_digits, hy1, hy2, hm1,
    hm2, hd1, hd2, hc, resolvedYear]
  split_ifs <;> first | rfl | (exfalso; push_cast at *; omega)

/-- C9: century disambiguation. On a string of 13 decimal digits that IsValid
accepts, with yy, mm, dd the two-digit fields at indices 0-1, 2-3, 4-5 and the
reference date (Y, M, D), BirthDate resolves the year given by resolvedYear
(the current century's candidate, moved back 100 when it is after Y - 16 or
equal to it with (mm, dd) strictly after (M, D)) and keeps mm and dd; a date
BirthDate returns without error has that year, month mm and day dd. A person
turning exactly 16 on the reference date stays in the current century, one
born a day later is moved back 100 years. -/
theorem BirthDate_century (now : Time) (id : GoString)
    (hdig : ∀ b ∈ id, isDigit b = true) (hvalid : IsValid id = some true) :
    BirthDate.provided now id =
      some (resolvedYear now.year now.month now.day (field id 0) (field id 2) (field id 4),
        (field id 2 : Int), (field id 4 : Int)) ∧
    (∀ t, BirthDate now id = some (t, none) →
      (t.year : Int)
        = resolvedYear now.year now.month now.day (field id 0) (field id 2) (field id 4) ∧
      t.month = field id 2 ∧ t.day = field id 4) ∧
    (((now.year / 100 * 100 + field id 0 : Nat) : Int) = (now.year : Int) - 16 →
      field id 2 = now.month → field id 4 = now.day →
      resolvedYear now.year now.month now.day (field id 0) (field id 2) (field id 4)
        = ((now.year / 100 * 100 + field id 0 : Nat) : Int)) ∧
    (((now.year / 100 * 100 + field id 0 : Nat) : Int) = (now.year : Int) - 16 →
      field id 2 = now.month → field id 4 = now.day + 1 →
      resolvedYear now.year now.month now.day (field id 0) (field id 2) (field id 4)
        = ((now.year / 100 * 100 + field id 0 : Nat) : Int) - 100) := by
  obtain ⟨b0, b1, b2, b3, b4, b5, b6, b7, b8, b9, b10, b11, b12, rfl⟩ :=
    exists_thirteen (length_of_valid hvalid)
  obtain ⟨y1, rfl, hy1⟩ := digit_split (hdig b0 (by simp))
  obtain ⟨y2, rfl, hy2⟩ := digit_split (hdig b1 (by simp))
  obtain ⟨m1, rfl, hm1⟩ := digit_split (hdig b2 (by simp))
  obtain ⟨m2, rfl, hm2⟩ := digit_split (hdig b3 (by simp))
  obtain ⟨d1, rfl, hd1⟩ := digit_split (hdig b4 (by simp))
  obtain ⟨d2, rfl, hd2⟩ := digit_split (hdig b5 (by simp))
  have hf0 : field [48 + y1, 48 + y2, 48 + m1, 48 + m2, 48 + d1, 48 + d2, b6, b7, b8, b9, b10,
      b11, b12] 0 = 10 * y1 + y2 := by
    simp [field]
  have hf2 : field [48 + y1, 48 + y2, 48 + m1, 48 + m2, 48 + d1, 48 + d2, b6, b7, b8, b9, b10,
      b11, b12] 2 = 10 * m1 + m2 := by
    simp [field]
  have hf4 : field [48 + y1, 48 + y2, 48 + m1, 48 + m2, 48 + d1, 48 + d2, b6, b7, b8, b9, b10,
      b11, b12] 4 = 10 * d1 + d2 := by
    simp [field]
  have hp := provided_thirteen now y1 y2 m1 m2 d1 d2 b6 b7 b8 b9 b10 b11 b12 hy1 hy2 hm1 hm2
    hd1 hd2
  rw [hf0, hf2, hf4]
  refine ⟨hp, ?_, ?_, ?_⟩
  · intro t ht
    simp only [BirthDate, hvalid, hp, Option.bind, Bool.not_true, Bool.false_eq_true,
      if_false] at ht
    split at ht
    · simp at ht
    · rename_i dob hdob
      simp only [Option.some.injEq, Prod.mk.injEq, and_true] at ht
      subst ht
      obtain ⟨e1, e2, e3⟩ := ParseInLocation_some hdob
      exact ⟨e1, by exact_mod_cast e2, by exact_mod_cast e3⟩
  · intro h1 h2 h3
    simp only [resolvedYear]
    split_ifs with h <;> push_cast at h1 h ⊢ <;> omega
  · intro h1 h2 h3
    simp only [resolvedYear]
    split_ifs with h <;> push_cast at h1 h ⊢ <;> omega

/-- Witness for C9 at the reference date 2026-11-04: 1011045120082 (fields 10,
11, 04) turns 16 on that day and resolves to 2010-11-04, while 1011055120089
(a day later) resolves to 1910-11-05. -/
theorem BirthDate_century_witness :
    resolvedYear 2026 11 4 (field (lit "1011045120082") 0) (field (lit "1011045120082") 2)
      (field (lit "1011045120082") 4) = 2010 ∧
    BirthDate ⟨2026, 11, 4⟩ (lit "1011045120082") = some (⟨2010, 11, 4⟩, none) ∧
    resolvedYear 2026 11 4 (field (lit "1011055120089") 0) (field (lit "1011055120089") 2)
      (field (lit "1011055120089") 4) = 1910 ∧
    BirthDate ⟨2026, 11, 4⟩ (lit "1011055120089") = some (⟨1910, 11, 5⟩, none) :=
  ⟨(BirthDate_century ⟨2026, 11, 4⟩ (lit "1011045120082") (by decide) (by decide)).2.2.1
      (by decide) (by decide) (by decide),
    by decide,
    (BirthDate_century ⟨2026, 11, 4⟩ (lit "1011055120089") (by decide) (by decide)).2.2.2
      (by decide) (by decide) (by decide),
    by decide⟩

/-- C10, as stated, fails: at the reference date 2100-01-01, which is after
2011-06-24, BirthDate on 9506245120008 returns 2095-06-24, not 1995-06-24. -/
theorem BirthDate_test_number_next_century :
    ¬ ∀ now : Time, now.after ⟨2011, 6, 24⟩ →
      BirthDate now (lit "9506245120008") = some (⟨1995, 6, 24⟩, none) := by
  intro h
  have h1 := h ⟨2100, 1, 1⟩ (by decide)
  revert h1
  decide

/-- C10, amended: for every reference date after 2011-06-24 and up to the year
2099, BirthDate on 9506245120008 succeeds and returns year 1995, month 6 and
day 24. -/
theorem BirthDate_test_number (now : Time) (hafter : now.after ⟨2011, 6, 24⟩)
    (hcent : now.year ≤ 2099) :
    BirthDate now (lit "9506245120008") = some (⟨1995, 6, 24⟩, none) := by
  have hv : IsValid (lit "9506245120008") = some true := by decide
  have hl : lit "9506245120008"
      = [48 + 9, 48 + 5, 48 + 0, 48 + 6, 48 + 2, 48 + 4, 53, 49, 50, 48, 48, 48, 56] := by
    decide
  have hY : 2011 ≤ now.year := by
    simp only [Time.after] at hafter
    omega
  have hr : resolvedYear now.year now.month now.day (10 * 9 + 5) (10 * 0 + 6) (10 * 2 + 4)
      = 1995 := by
    have hC : now.year / 100 * 100 = 2000 := by omega
    simp only [resolvedYear, hC]
    split_ifs with h
    · norm_num
    · exfalso
      apply h
      left
      push_cast
      omega
  have hp := provided_thirteen now 9 5 0 6 2 4 53 49 50 48 48 48 56 (by decide) (by decide)
    (by decide) (by decide) (by decide) (by decide)
  rw [hr] at hp
  have hparse : ParseInLocation 1995 6 24 = some ⟨1995, 6, 24⟩ := by decide
  simp only [BirthDate, hv, Option.bind, Bool.not_true, Bool.false_eq_true, if_false]
  rw [hl, hp]
  simp only [Nat.cast_ofNat]
  norm_num [hparse]

/-- Witness for amended C10 at the reference date 2026-11-04. -/
theorem BirthDate_test_number_witness :
    Time.after ⟨2026, 11, 4⟩ ⟨2011, 6, 24⟩ ∧ (2026 : Nat) ≤ 2099 ∧
    BirthDate ⟨2026, 11, 4⟩ (lit "9506245120008") = some (⟨1995, 6, 24⟩, none) :=
  ⟨by decide, by decide, BirthDate_test_number ⟨2026, 11, 4⟩ (by decide) (by decide)⟩

/-! ## Calendar validation -/

theorem daysIn_eq_daysOfMonth (y : Int) (m : Nat) (h1 : 1 ≤ m) (h12 : m ≤ 12) :
    daysIn (m : Int) y = (daysOfMonth y m : Int) := by
  by_cases hl : leapYear y
  · have hb : isLeap y = true := by
      unfold leapYear at hl
      simp only [isLeap, Bool.and_eq_true, beq_iff_eq, Bool.or_eq_true, bne_iff_ne, ne_eq]
      exact hl
    interval_cases m <;> simp [daysIn, daysOfMonth, hl, hb]
  · have hb : isLeap y = false := by
      unfold leapYear at hl
      rw [Bool.eq_false_iff]
      simp only [isLeap, Bool.and_eq_true, beq_iff_eq, Bool.or_eq_true, bne_iff_ne, ne_eq]
      exact hl
    interval_cases m <;> simp [daysIn, daysOfMonth, hl, hb]

theorem ParseInLocation_valid (y : Int) (m d : Nat) (hy : 1000 ≤ y) (hy2 : y ≤ 9999)
    (hm : m ≤ 99) (hd : d ≤ 99) (hv : validDate y m d) :
    ParseInLocation y m d = some ⟨y.toNat, m, d⟩ := by
  obtain ⟨h1, h2, h3, h4⟩ := hv
  have hdi := daysIn_eq_daysOfMonth y m h1 h2
  unfold ParseInLocation
  rw [if_pos (by omega), if_neg (by omega), if_neg (by omega)]
  simp

theorem ParseInLocation_invalid (y : Int) (m d : Nat) (hv : ¬ validDate y m d) :
    ParseInLocation y m d = none := by
  unfold ParseInLocation
  split_ifs with h1 h2 h3
  · rfl
  · rfl
  · exfalso
    apply hv
    have hm1 : 1 ≤ m := by omega
    have hm2 : m ≤ 12 := by omega
    have hdi := daysIn_eq_daysOfMonth y m hm1 hm2
    exact ⟨hm1, hm2, by omega, by omega⟩
  · rfl

theorem resolvedYear_range (Y M D yy mm dd : Nat) (hlo : 1100 ≤ Y) (hhi : Y ≤ 9999)
    (hyy : yy ≤ 99) :
    1000 ≤ resolvedYear Y M D yy mm dd ∧ resolvedYear Y M D yy mm dd ≤ 9999 := by
  simp only [resolvedYear]
  split_ifs with h <;> push_cast at h ⊢ <;> omega

theorem BirthDate_thirteen (now : Time) (y1 y2 m1 m2 d1 d2 b6 b7 b8 b9 b10 b11 b12 : Nat)
    (hy1 : y1 ≤ 9) (hy2 : y2 ≤ 9) (hm1 : m1 ≤ 9) (hm2 : m2 ≤ 9) (hd1 : d1 ≤ 9) (hd2 : d2 ≤ 9)
    (hvalid : IsValid [48 + y1, 48 + y2, 48 + m1, 48 + m2, 48 + d1, 48 + d2, b6,
      b7, b8, b9, b10, b11, b12] = some true) :
    BirthDate now [48 + y1, 48 + y2, 48 + m1, 48 + m2, 48 + d1, 48 + d2, b6,
      b7, b8, b9, b10, b11, b12] =
      match ParseInLocation
          (resolvedYear now.year now.month now.day (10 * y1 + y2) (10 * m1 + m2) (10 * d1 + d2))
          ((10 * m1 + m2 : Nat) : Int) ((10 * d1 + d2 : Nat) : Int) with
      | none => some (now, some "cannot parse date of birth from id number")
      | some dob => some (dob, none) := by
  have hp := provided_thirteen now y1 y2 m1 m2 d1 d2 b6 b7 b8 b9 b10 b11 b12 hy1 hy2 hm1 hm2
    hd1 hd2
  simp only [BirthDate, hvalid, hp, Option.bind, Bool.not_true, Bool.false_eq_true, if_false]

theorem field_thirteen (y1 y2 m1 m2 d1 d2 b6 b7 b8 b9 b10 b11 b12 : Nat) :
    field [48 + y1, 48 + y2, 48 + m1, 48 + m2, 48 + d1, 48 + d2, b6, b7, b8, b9, b10,
      b11, b12] 0 = 10 * y1 + y2 ∧
    field [48 + y1, 48 + y2, 48 + m1, 48 + m2, 48 + d1, 48 + d2, b6, b7, b8, b9, b10,
      b11, b12] 2 = 10 * m1 + m2 ∧
    field [48 + y1, 48 + y2, 48 + m1, 48 + m2, 48 + d1, 48 + d2, b6, b7, b8, b9, b10,
      b11, b12] 4 = 10 * d1 + d2 := by
  simp [field]

/-- The result of `BirthDate` on an accepted string of 13 decimal digits, in
terms of its two-digit fields. -/
theorem BirthDate_digits (now : Time) (id : GoString)
    (hdig : ∀ b ∈ id, isDigit b = true) (hvalid : IsValid id = some true) :
    field id 0 ≤ 99 ∧ field id 2 ≤ 99 ∧ field id 4 ≤ 99 ∧
    BirthDate now id =
      match ParseInLocation
          (resolvedYear now.year now.month now.day (field id 0) (field id 2) (field id 4))
          ((field id 2 : Nat) : Int) ((field id 4 : Nat) : Int) with
      | none => some (now, some "cannot parse date of birth from id number")
      | some dob => some (dob, none) := by
  obtain ⟨b0, b1, b2, b3, b4, b5, b6, b7, b8, b9, b10, b11, b12, rfl⟩ :=
    exists_thirteen (length_of_valid hvalid)
  obtain ⟨y1, rfl, hy1⟩ := digit_split (hdig b0 (by simp))
  obtain ⟨y2, rfl, hy2⟩ := digit_split (hdig b1 (by simp))
  obtain ⟨m1, rfl, hm1⟩ := digit_split (hdig b2 (by simp))
  obtain ⟨m2, rfl, hm2⟩ := digit_split (hdig b3 (by simp))
  obtain ⟨d1, rfl, hd1⟩ := digit_split (hdig b4 (by simp))
  obtain ⟨d2, rfl, hd2⟩ := digit_split (hdig b5 (by simp))
  obtain ⟨hf0, hf2, hf4⟩ := field_thirteen y1 y2 m1 m2 d1 d2 b6 b7 b8 b9 b10 b11 b12
  rw [hf0, hf2, hf4]
  exact ⟨by omega, by omega, by omega,
    BirthDate_thirteen now y1 y2 m1 m2 d1 d2 b6 b7 b8 b9 b10 b11 b12 hy1 hy2 hm1 hm2 hd1 hd2
      hvalid⟩

/-- C11, as stated, fails: at the reference date 10100-01-01 the accepted number
9506245120008 resolves to 10095-06-24, a valid calendar date, and BirthDate
still returns the date-parse error, because the year is not printed in four
digits. -/
theorem BirthDate_date_error_far_future :
    ¬ ∀ (now : Time) (id : GoString), (∀ b ∈ id, isDigit b = true) → IsValid id = some true →
      (BirthDate now id = some (now, some "cannot parse date of birth from id number") ↔
        ¬ validDate (resolvedYear now.year now.month now.day (field id 0) (field id 2)
          (field id 4)) (field id 2) (field id 4)) := by
  intro h
  have h1 := h ⟨10100, 1, 1⟩ (lit "9506245120008") (by decide) (by decide)
  revert h1
  decide

/-- C11, amended: for a reference date whose year is in 1100..9999 and a string
of 13 decimal digits that IsValid accepts, BirthDate returns the error "cannot
parse date of birth from id number" if and only if (resolved year, mm, dd) is
not a valid Gregorian calendar date, and otherwise returns that date with no
error. Month 13, day 31 in a 30-day month and day 30 in February are
rejected. -/
theorem BirthDate_date_error_iff (now : Time) (id : GoString)
    (hdig : ∀ b ∈ id, isDigit b = true) (hvalid : IsValid id = some true)
    (hlo : 1100 ≤ now.year) (hhi : now.year ≤ 9999) :
    (BirthDate now id = some (now, some "cannot parse date of birth from id number") ↔
      ¬ validDate (resolvedYear now.year now.month now.day (field id 0) (field id 2)
        (field id 4)) (field id 2) (field id 4)) ∧
    (validDate (resolvedYear now.year now.month now.day (field id 0) (field id 2)
        (field id 4)) (field id 2) (field id 4) →
      BirthDate now id = some (⟨(resolvedYear now.year now.month now.day (field id 0)
        (field id 2) (field id 4)).toNat, field id 2, field id 4⟩, none)) ∧
    (field id 2 = 13 ∨
      (field id 4 = 31 ∧
        (field id 2 = 4 ∨ field id 2 = 6 ∨ field id 2 = 9 ∨ field id 2 = 11)) ∨
      (field id 2 = 2 ∧ field id 4 = 30) →
      BirthDate now id = some (now, some "cannot parse date of birth from id number")) := by
  obtain ⟨h0, h2, h4, hb⟩ := BirthDate_digits now id hdig hvalid
  obtain ⟨hr1, hr2⟩ := resolvedYear_range now.year now.month now.day (field id 0) (field id 2)
    (field id 4) hlo hhi h0
  generalize resolvedYear now.year now.month now.day (field id 0) (field id 2) (field id 4) = r
    at hb hr1 hr2 ⊢
  have hiff : BirthDate now id = some (now, some "cannot parse date of birth from id number") ↔
      ¬ validDate r (field id 2) (field id 4) := by
    constructor
    · intro he hv
      rw [hb, ParseInLocation_valid r _ _ hr1 hr2 h2 h4 hv] at he
      simp at he
    · intro hv
      rw [hb, ParseInLocation_invalid r _ _ hv]
  refine ⟨hiff, ?_, ?_⟩
  · intro hv
    rw [hb, ParseInLocation_valid r _ _ hr1 hr2 h2 h4 hv]
  · intro hc
    apply hiff.mpr
    intro hv
    obtain ⟨v1, v2, v3, v4⟩ := hv
    rcases hc with hc | ⟨hc4, hc2⟩ | ⟨hc2, hc4⟩
    · omega
    · rw [hc4] at v4
      rcases hc2 with hc2 | hc2 | hc2 | hc2 <;> rw [hc2] at v4 <;> simp [daysOfMonth] at v4
    · rw [hc2, hc4] at v4
      simp only [daysOfMonth] at v4
      split_ifs at v4 <;> omega

/-- Witness for amended C11 at the reference date 2026-11-04: 9506245120008
gives 1995-06-24, while 9513245120004 (month 13), 9504315120008 (31 April) and
9502305120004 (30 February) give the date-parse error. -/
theorem BirthDate_date_error_iff_witness :
    BirthDate ⟨2026, 11, 4⟩ (lit "9506245120008") = some (⟨1995, 6, 24⟩, none) ∧
    BirthDate ⟨2026, 11, 4⟩ (lit "9513245120004")
      = some (⟨2026, 11, 4⟩, some "cannot parse date of birth from id number") ∧
    BirthDate ⟨2026, 11, 4⟩ (lit "9504315120008")
      = some (⟨2026, 11, 4⟩, some "cannot parse date of birth from id number") ∧
    BirthDate ⟨2026, 11, 4⟩ (lit "9502305120004")
      = some (⟨2026, 11, 4⟩, some "cannot parse date of birth from id number") :=
  ⟨(BirthDate_date_error_iff ⟨2026, 11, 4⟩ (lit "9506245120008") (by decide) (by decide)
      (by decide) (by decide)).2.1 (by decide),
    (BirthDate_date_error_iff ⟨2026, 11, 4⟩ (lit "9513245120004") (by decide) (by decide)
      (by decide) (by decide)).2.2 (by decide),
    (BirthDate_date_error_iff ⟨2026, 11, 4⟩ (lit "9504315120008") (by decide) (by decide)
      (by decide) (by decide)).2.2 (by decide),
    (BirthDate_date_error_iff ⟨2026, 11, 4⟩ (lit "9502305120004") (by decide) (by decide)
      (by decide) (by decide)).2.2 (by decide)⟩

/-- C12, as stated, fails: 9502305120008 does not pass IsValid (its Luhn sum is
34), so BirthDate returns the invalid-identity error and not the date-parse
error. -/
theorem BirthDate_invalid_dob_not_date_error :
    ¬ ∀ now : Time, BirthDate now (lit "9502305120008")
      = some (now, some "cannot parse date of birth from id number") := by
  intro h
  have h1 := h ⟨2026, 11, 4⟩
  revert h1
  decide

/-- C12, amended: for every reference date, BirthDate on 9502305120008 returns
the error "invalid south african id number", since IsValid rejects this id; on
9502305120004, which has the same date digits and passes IsValid, it returns
the error "cannot parse date of birth from id number", day 30 not being a day
of month 02 in any year. -/
theorem BirthDate_invalid_dob (now : Time) :
    luhnSum (lit "9502305120008") = 34 ∧
    IsValid (lit "9502305120008") = some false ∧
    BirthDate now (lit "9502305120008") = some (now, some "invalid south african id number") ∧
    IsValid (lit "9502305120004") = some true ∧
    BirthDate now (lit "9502305120004")
      = some (now, some "cannot parse date of birth from id number") := by
  have hi : IsValid (lit "9502305120008") = some false := by decide
  have hv : IsValid (lit "9502305120004") = some true := by decide
  have hdig : ∀ b ∈ lit "9502305120004", isDigit b = true := by decide
  have hf2 : field (lit "9502305120004") 2 = 2 := by decide
  have hf4 : field (lit "9502305120004") 4 = 30 := by decide
  obtain ⟨-, -, -, hb⟩ := BirthDate_digits now (lit "9502305120004") hdig hv
  refine ⟨by decide, hi, ?_, hv, ?_⟩
  · simp only [BirthDate, hi, Option.bind, Bool.not_false, if_true, errorMessage]
  · rw [hb, hf2, hf4, ParseInLocation_invalid]
    intro hvd
    obtain ⟨-, -, -, v4⟩ := hvd
    simp only [daysOfMonth] at v4
    split_ifs at v4 <;> omega

/-! ## Parse -/

/-- C13: Parse does not propagate the date-parse error. For every reference
date, BirthDate on the accepted id 9502305120004 returns the date-parse error,
and Parse on it returns a nil error with a Details whose DOB is the value
BirthDate returned beside its error (the current time). -/
theorem Parse_drops_date_error (now : Time) :
    BirthDate now (lit "9502305120004")
      = some (now, some "cannot parse date of birth from id number") ∧
    Parse now (lit "9502305120004") = some (⟨now, "male", true⟩, none) := by
  have hv : IsValid (lit "9502305120004") = some true := by decide
  have hdig : ∀ b ∈ lit "9502305120004", isDigit b = true := by decide
  have hf2 : field (lit "9502305120004") 2 = 2 := by decide
  have hf4 : field (lit "9502305120004") 4 = 30 := by decide
  have hg : Gender (lit "9502305120004") = some ("male", none) := by decide
  have hc : IsCitizen (lit "9502305120004") = some (true, none) := by decide
  obtain ⟨-, -, -, hb⟩ := BirthDate_digits now (lit "9502305120004") hdig hv
  have hbd : BirthDate now (lit "9502305120004")
      = some (now, some "cannot parse date of birth from id number") := by
    rw [hb, hf2, hf4, ParseInLocation_invalid]
    intro hvd
    obtain ⟨-, -, -, v4⟩ := hvd
    simp only [daysOfMonth] at v4
    split_ifs at v4 <;> omega
  refine ⟨hbd, ?_⟩
  simp only [Parse, hv, hbd, hg, hc, Option.bind, Bool.not_true, Bool.false_eq_true, if_false]

/-- C14, as stated, fails in its instance: at the reference date 2100-01-01
BirthDate on 9506245120008 succeeds and Parse returns the DOB 2095-06-24, not
1995-06-24. -/
theorem Parse_test_number_next_century :
    ¬ ∀ (now : Time) (t : Time), IsValid (lit "9506245120008") = some true →
      BirthDate now (lit "9506245120008") = some (t, none) →
      Parse now (lit "9506245120008") = some (⟨⟨1995, 6, 24⟩, "male", true⟩, none) := by
  intro h
  have h1 := h ⟨2100, 1, 1⟩ ⟨2095, 6, 24⟩ (by decide) (by decide)
  revert h1
  decide

/-- C14, amended: whenever IsValid accepts the id and BirthDate succeeds, Parse
returns no error and a Details whose DOB, Gender and Citizen are the results of
BirthDate, Gender and IsCitizen on the same id; for 9506245120008 and a
reference date in the years 2000..2099 this is DOB 1995-06-24, Gender male,
Citizen true. -/
theorem Parse_composes (now : Time) (id : GoString) (t : Time)
    (hvalid : IsValid id = some true) (hdob : BirthDate now id = some (t, none)) :
    (∃ g c, Gender id = some (g, none) ∧ IsCitizen id = some (c, none) ∧
      Parse now id = some (⟨t, g, c⟩, none)) ∧
    (id = lit "9506245120008" → 2000 ≤ now.year → now.year ≤ 2099 →
      Parse now id = some (⟨⟨1995, 6, 24⟩, "male", true⟩, none)) := by
  have hg := Gender_valid id hvalid
  have hc := IsCitizen_valid id hvalid
  have hparse : Parse now id = some (⟨t, if digitVal (id.getD 6 0) < 5 then "female" else "male",
      decide (id[10]? = some 48)⟩, none) := by
    simp only [Parse, hvalid, hdob, hg, hc, Option.bind, Bool.not_true, Bool.false_eq_true,
      if_false]
  refine ⟨⟨_, _, hg, hc, hparse⟩, ?_⟩
  intro hid hlo hhi
  subst hid
  have hdig : ∀ b ∈ lit "9506245120008", isDigit b = true := by decide
  obtain ⟨-, -, -, hb⟩ := BirthDate_digits now (lit "9506245120008") hdig hvalid
  have hf0 : field (lit "9506245120008") 0 = 95 := by decide
  have hf2 : field (lit "9506245120008") 2 = 6 := by decide
  have hf4 : field (lit "9506245120008") 4 = 24 := by decide
  have hr : resolvedYear now.year now.month now.day 95 6 24 = 1995 := by
    have hC : now.year / 100 * 100 = 2000 := by omega
    simp only [resolvedYear, hC]
    split_ifs with h
    · norm_num
    · exfalso
      apply h
      left
      push_cast
      omega
  have hp : ParseInLocation 1995 ((6 : Nat) : Int) ((24 : Nat) : Int) = some ⟨1995, 6, 24⟩ := by
    decide
  rw [hf0, hf2, hf4, hr, hp] at hb
  rw [hb] at hdob
  simp only [Option.some.injEq, Prod.mk.injEq, and_true] at hdob
  rw [hparse, ← hdob]
  decide

/-- Witness for amended C14 at the reference date 2026-11-04 and the valid test
number. -/
theorem Parse_composes_witness :
    IsValid (lit "9506245120008") = some true ∧
    BirthDate ⟨2026, 11, 4⟩ (lit "9506245120008") = some (⟨1995, 6, 24⟩, none) ∧
    Gender (lit "9506245120008") = some ("male", none) ∧
    IsCitizen (lit "9506245120008") = some (true, none) ∧
    Parse ⟨2026, 11, 4⟩ (lit "9506245120008")
      = some (⟨⟨1995, 6, 24⟩, "male", true⟩, none) :=
  ⟨by decide, by decide, by decide, by decide,
    (Parse_composes ⟨2026, 11, 4⟩ (lit "9506245120008") ⟨1995, 6, 24⟩ (by decide)
      (by decide)).2 rfl (by decide) (by decide)⟩

/-! ## Age window -/

/-- C15: the returned date of birth can be less than 16 years before the
reference date. At the reference date 2105-03-01, BirthDate on 9506245120008
returns 2095-06-24 with no error, which is after 2089-03-01. -/
theorem BirthDate_under_sixteen :
    (∀ b ∈ lit "9506245120008", isDigit b = true) ∧
    IsValid (lit "9506245120008") = some true ∧
    BirthDate ⟨2105, 3, 1⟩ (lit "9506245120008") = some (⟨2095, 6, 24⟩, none) ∧
    ¬ dateLe 2095 6 24 (2105 - 16) 3 1 := by
  decide

/-- C16: for a reference date (Y, M, D) with Y mod 100 ≥ 16 and a string of 13
decimal digits that IsValid accepts, a date returned by BirthDate without error
lies in the window (Y - 116, M, D) < (year, month, day) ≤ (Y - 16, M, D), its
year is congruent to yy modulo 100, and it is the only such year that places
(year, mm, dd) in that window. -/
theorem BirthDate_window (now : Time) (id : GoString) (t : Time)
    (hdig : ∀ b ∈ id, isDigit b = true) (hvalid : IsValid id = some true)
    (hcent : 16 ≤ now.year % 100) (hdob : BirthDate now id = some (t, none)) :
    dateLt ((now.year : Int) - 116) now.month now.day t.year t.month t.day ∧
    dateLe t.year t.month t.day ((now.year : Int) - 16) now.month now.day ∧
    (t.year : Int) % 100 = field id 0 ∧ t.month = field id 2 ∧ t.day = field id 4 ∧
    (∀ y : Int, y % 100 = field id 0 →
      dateLt ((now.year : Int) - 116) now.month now.day y t.month t.day →
      dateLe y t.month t.day ((now.year : Int) - 16) now.month now.day → y = t.year) := by
  obtain ⟨h0, h2, h4, hb⟩ := BirthDate_digits now id hdig hvalid
  rw [hb] at hdob
  split at hdob
  · simp at hdob
  · rename_i dob hparse
    simp only [Option.some.injEq, Prod.mk.injEq, and_true] at hdob
    subst hdob
    obtain ⟨e1, e2, e3⟩ := ParseInLocation_some hparse
    have e2n : dob.month = field id 2 := by exact_mod_cast e2
    have e3n : dob.day = field id 4 := by exact_mod_cast e3
    simp only [resolvedYear] at e1
    simp only [dateLt, dateLe]
    rw [e2n, e3n]
    generalize field id 0 = yy at *
    generalize field id 2 = mm at *
    generalize field id 4 = dd at *
    generalize dob.year = ty at *
    obtain ⟨Y, M, D⟩ := now
    simp only at *
    split_ifs at e1 with hc
    · push_cast at e1 hc
      refine ⟨by omega, by omega, by omega, trivial, trivial, ?_⟩
      intro y hy h1 h2
      omega
    · push_cast at e1 hc
      refine ⟨by omega, by omega, by omega, trivial, trivial, ?_⟩
      intro y hy h1 h2
      omega

/-- Witness for C16 at the reference date 2026-11-04: 9506245120008 gives
1995-06-24, inside the window from 1910-11-04 (excluded) to 2010-11-04. -/
theorem BirthDate_window_witness :
    16 ≤ 2026 % 100 ∧
    BirthDate ⟨2026, 11, 4⟩ (lit "9506245120008") = some (⟨1995, 6, 24⟩, none) ∧
    dateLt (2026 - 116) 11 4 1995 6 24 ∧ dateLe 1995 6 24 (2026 - 16) 11 4 :=
  ⟨by decide, by decide,
    (BirthDate_window ⟨2026, 11, 4⟩ (lit "9506245120008") ⟨1995, 6, 24⟩ (by decide) (by decide)
      (by decide) (by decide)).1,
    (BirthDate_window ⟨2026, 11, 4⟩ (lit "9506245120008") ⟨1995, 6, 24⟩ (by decide) (by decide)
      (by decide) (by decide)).2.1⟩

/-! ## Check digit -/

theorem luhnRev_snoc (p : GoString) (c : Nat) :
    luhnRev (p ++ [c]).reverse false = digitVal c + luhnRev p.reverse true := by
  simp [luhnRev, luhnCode]

/-- C17: every string of 12 bytes, in particular every string of 12 decimal
digits, has exactly one decimal digit c such that IsValid accepts the string
with c appended. -/
theorem check_digit_unique (p : GoString) (hlen : p.length = 12) :
    ∃! c, isDigit c = true ∧ IsValid (p ++ [c]) = some true := by
  have hl : ∀ c, (p ++ [c]).length = 13 := by
    intro c
    simp [hlen]
  have hv : ∀ c, isDigit c = true →
      (IsValid (p ++ [c]) = some true ↔ (c - 48 + luhnRev p.reverse true) % 10 = 0) := by
    intro c hc
    rw [IsValid_eq, luhnRev_snoc, hl]
    simp [digitVal, hc]
  have hd : ∀ c, isDigit c = true ↔ 48 ≤ c ∧ c ≤ 57 := by
    intro c
    simp [isDigit]
  generalize luhnRev p.reverse true = S at hv
  refine ⟨48 + (10 - S % 10) % 10, ⟨?_, ?_⟩, ?_⟩
  · rw [hd]
    omega
  · rw [hv _ (by rw [hd]; omega)]
    omega
  · rintro c ⟨hc, hvc⟩
    rw [hv c hc] at hvc
    rw [hd] at hc
    omega

/-- Witness for C17: the prefix 950624512000 is completed by the digit 8, and
by no other digit. -/
theorem check_digit_unique_witness :
    (lit "950624512000").length = 12 ∧
    IsValid (lit "950624512000" ++ [56]) = some true ∧
    (∃! c, isDigit c = true ∧ IsValid (lit "950624512000" ++ [c]) = some true) :=
  ⟨by decide, by decide, check_digit_unique (lit "950624512000") (by decide)⟩

/-! ## Adjacent transpositions -/

theorem luhnCode_false (d : Nat) : luhnCode false d = d := rfl

theorem swap_key (x y : Nat) (hx : isDigit x = true) (hy : isDigit y = true) (hxy : x ≠ y) :
    (((x = 48 ∧ y = 57) ∨ (x = 57 ∧ y = 48)) ∧
      (luhnCode true (digitVal x) + digitVal y) % 10
        = (luhnCode true (digitVal y) + digitVal x) % 10) ∨
    (¬ ((x = 48 ∧ y = 57) ∨ (x = 57 ∧ y = 48)) ∧
      (luhnCode true (digitVal x) + digitVal y) % 10
        ≠ (luhnCode true (digitVal y) + digitVal x) % 10) := by
  have hx2 := hx
  have hy2 := hy
  simp only [isDigit, Bool.and_eq_true, decide_eq_true_eq] at hx2 hy2
  simp only [luhnCode, digitVal, hx, hy, if_true]
  split_ifs <;> omega

theorem swap_key_rev (x y : Nat) (hx : isDigit x = true) (hy : isDigit y = true) (hxy : x ≠ y) :
    (((x = 48 ∧ y = 57) ∨ (x = 57 ∧ y = 48)) ∧
      (luhnCode true (digitVal y) + digitVal x) % 10
        = (luhnCode true (digitVal x) + digitVal y) % 10) ∨
    (¬ ((x = 48 ∧ y = 57) ∨ (x = 57 ∧ y = 48)) ∧
      (luhnCode true (digitVal y) + digitVal x) % 10
        ≠ (luhnCode true (digitVal x) + digitVal y) % 10) := by
  rcases swap_key x y hx hy hxy with ⟨hz, he⟩ | ⟨hz, he⟩
  · exact Or.inl ⟨hz, he.symm⟩
  · exact Or.inr ⟨hz, fun h => he h.symm⟩

theorem swap_total (T T2 P Q : Nat) (z : Prop) [Decidable z]
    (hk : (z ∧ P % 10 = Q % 10) ∨ (¬ z ∧ P % 10 ≠ Q % 10)) (hT : T + Q = T2 + P)
    (hv : T % 10 = 0) :
    decide (T2 % 10 = 0) = decide z := by
  rw [decide_eq_decide]
  rcases hk with ⟨hz, he⟩ | ⟨hz, he⟩
  · simp only [hz, iff_true]
    omega
  · simp only [hz, iff_false]
    omega

/-- C18: in a string of 13 decimal digits that IsValid accepts, swapping two
different adjacent digits gives a string that IsValid rejects, unless the two
digits are 0 and 9: swapping an adjacent 0 and 9 leaves the string accepted. -/
theorem IsValid_adjacent_swap (id : GoString) (hdig : ∀ b ∈ id, isDigit b = true)
    (hvalid : IsValid id = some true) (i : Nat) (hi : i < 12) (a b : Nat)
    (ha : id[i]? = some a) (hb : id[i + 1]? = some b) (hab : a ≠ b) :
    (IsValid ((id.set i b).set (i + 1) a) = some false ↔
      ¬ ((a = 48 ∧ b = 57) ∨ (a = 57 ∧ b = 48))) ∧
    ((a = 48 ∧ b = 57) ∨ (a = 57 ∧ b = 48) →
      IsValid ((id.set i b).set (i + 1) a) = some true) := by
  have hcore : IsValid ((id.set i b).set (i + 1) a)
      = some (decide ((a = 48 ∧ b = 57) ∨ (a = 57 ∧ b = 48))) := by
    obtain ⟨b0, b1, b2, b3, b4, b5, b6, b7, b8, b9, b10, b11, b12, rfl⟩ :=
      exists_thirteen (length_of_valid hvalid)
    simp only [List.mem_cons, List.mem_singleton, forall_eq_or_imp, forall_eq] at hdig
    obtain ⟨h0, h1, h2, h3, h4, h5, h6, h7, h8, h9, h10, h11, h12, -⟩ := hdig
    rw [IsValid_eq] at hvalid ⊢
    simp only [List.reverse_cons, List.reverse_nil, List.nil_append, List.cons_append,
      List.singleton_append, luhnRev, luhnCode_false, Bool.not_false, Bool.not_true,
      List.length_cons, List.length_nil, Option.some.injEq, decide_eq_true_eq, true_and]
      at hvalid
    interval_cases i <;>
      simp only [List.getElem?_cons_zero, List.getElem?_cons_succ, Option.some.injEq] at ha hb <;>
      subst ha <;> subst hb <;>
      simp only [List.set_cons_zero, List.set_cons_succ, List.reverse_cons, List.reverse_nil,
        List.nil_append, List.cons_append, List.singleton_append, luhnRev, luhnCode_false,
        Bool.not_false, Bool.not_true, List.length_cons, List.length_nil, Option.some.injEq,
        true_and]
    · refine swap_total _ _ _ _ _ (swap_key_rev b0 b1 h0 h1 hab) ?_ hvalid
      omega
    · refine swap_total _ _ _ _ _ (swap_key b1 b2 h1 h2 hab) ?_ hvalid
      omega
    · refine swap_total _ _ _ _ _ (swap_key_rev b2 b3 h2 h3 hab) ?_ hvalid
      omega
    · refine swap_total _ _ _ _ _ (swap_key b3 b4 h3 h4 hab) ?_ hvalid
      omega
    · refine swap_total _ _ _ _ _ (swap_key_rev b4 b5 h4 h5 hab) ?_ hvalid
      omega
    · refine swap_total _ _ _ _ _ (swap_key b5 b6 h5 h6 hab) ?_ hvalid
      omega
    · refine swap_total _ _ _ _ _ (swap_key_rev b6 b7 h6 h7 hab) ?_ hvalid
      omega
    · refine swap_total _ _ _ _ _ (swap_key b7 b8 h7 h8 hab) ?_ hvalid
      omega
    · refine swap_total _ _ _ _ _ (swap_key_rev b8 b9 h8 h9 hab) ?_ hvalid
      omega
    · refine swap_total _ _ _ _ _ (swap_key b9 b10 h9 h10 hab) ?_ hvalid
      omega
    · refine swap_total _ _ _ _ _ (swap_key_rev b10 b11 h10 h11 hab) ?_ hvalid
      omega
    · refine swap_total _ _ _ _ _ (swap_key b11 b12 h11 h12 hab) ?_ hvalid
      omega
  rw [hcore]
  constructor
  · simp
  · intro hz
    simp [hz]

/-- Witness for C18: in the accepted 9506245120008, swapping the digits 9 and 5
at positions 0 and 1 gives a rejected string; in the accepted 0906245120009,
swapping the digits 0 and 9 at positions 0 and 1 gives 9006245120009, which is
still accepted. -/
theorem IsValid_adjacent_swap_witness :
    IsValid (lit "9506245120008") = some true ∧
    IsValid (((lit "9506245120008").set 0 53).set (0 + 1) 57) = some false ∧
    IsValid (lit "0906245120009") = some true ∧
    ((lit "0906245120009").set 0 57).set (0 + 1) 48 = lit "9006245120009" ∧
    IsValid (((lit "0906245120009").set 0 57).set (0 + 1) 48) = some true :=
  ⟨by decide,
    (IsValid_adjacent_swap (lit "9506245120008") (by decide) (by decide) 0 (by decide) 57 53
      (by decide) (by decide) (by decide)).1.mpr (by decide),
    by decide, by decide,
    (IsValid_adjacent_swap (lit "0906245120009") (by decide) (by decide) 0 (by decide) 48 57
      (by decide) (by decide) (by decide)).2 (by decide)⟩


/-! ## Index and slice ranges -/

theorem loop_isSome (id : GoString) (n : Nat) (hn : n ≤ id.length) (sum : Int)
    (alternate : Bool) : (IsValid.loop id n sum alternate).isSome = true := by
  induction n generalizing sum alternate with
  | zero => simp [IsValid.loop]
  | succ k ih =>
    have hk : k < id.length := hn
    have hidx : index id k = some (id.get ⟨k, hk⟩) := by
      simp [index, hk]
    rw [IsValid.loop, hidx]
    exact ih (by omega) _ _

theorem provided_isSome (now : Time) (id : GoString) (hlen : id.length = 13) :
    (BirthDate.provided now id).isSome = true := by
  obtain ⟨b0, b1, b2, b3, b4, b5, b6, b7, b8, b9, b10, b11, b12, rfl⟩ := exists_thirteen hlen
  have hs0 : slice [b0, b1, b2, b3, b4, b5, b6, b7, b8, b9, b10, b11, b12] 0 2
      = some [b0, b1] := rfl
  have hs2 : slice [b0, b1, b2, b3, b4, b5, b6, b7, b8, b9, b10, b11, b12] 2 4
      = some [b2, b3] := rfl
  have hs4 : slice [b0, b1, b2, b3, b4, b5, b6, b7, b8, b9, b10, b11, b12] 4 6
      = some [b4, b5] := rfl
  simp only [BirthDate.provided, hs0, hs2, hs4, Option.bind]
  split_ifs <;> rfl

theorem slice_isSome (id : GoString) (lo hi : Nat) (h1 : lo ≤ hi) (h2 : hi ≤ id.length) :
    (slice id lo hi).isSome = true := by
  simp [slice, h1, h2]

theorem BirthDate_isSome (now : Time) (id : GoString) : (BirthDate now id).isSome = true := by
  rw [BirthDate, IsValid_eq]
  by_cases h : id.length = 13 ∧ luhnRev id.reverse false % 10 = 0
  · have hp := provided_isSome now id h.1
    obtain ⟨p, hp2⟩ := Option.isSome_iff_exists.mp hp
    simp only [h, and_self, decide_True, Option.bind, Bool.not_true, Bool.false_eq_true,
      if_false, hp2]
    split <;> rfl
  · simp [h]

/-- C19: no index or slice expression is out of range. For every input string
and reference date, IsValid, Gender, IsCitizen, BirthDate and Parse return
without an out-of-range access; the loop of IsValid started at any position up
to the length reads only existing bytes; and once IsValid has returned true the
string has length 13, so that id[6:7], id[10:11], id[0:2], id[2:4] and id[4:6]
are all in range. -/
theorem no_out_of_range (now : Time) (id : GoString) :
    (IsValid id).isSome = true ∧ (Gender id).isSome = true ∧ (IsCitizen id).isSome = true ∧
    (BirthDate now id).isSome = true ∧ (Parse now id).isSome = true ∧
    (∀ n sum alternate, n ≤ id.length → (IsValid.loop id n sum alternate).isSome = true) ∧
    (∀ i, i < id.length → (index id i).isSome = true) ∧
    (IsValid id = some true →
      id.length = 13 ∧ (slice id 6 7).isSome = true ∧ (slice id 10 11).isSome = true ∧
      (slice id 0 2).isSome = true ∧ (slice id 2 4).isSome = true ∧
      (slice id 4 6).isSome = true) := by
  have hB := BirthDate_isSome now id
  have hG : (Gender id).isSome = true := by
    by_cases h : IsValid id = some true
    · rw [Gender_valid id h]; rfl
    · rw [IsValid_eq] at h
      rw [Gender, IsValid_eq]
      simp only [Option.some.injEq, decide_eq_true_eq] at h
      simp [h]
  have hC : (IsCitizen id).isSome = true := by
    by_cases h : IsValid id = some true
    · rw [IsCitizen_valid id h]; rfl
    · rw [IsValid_eq] at h
      rw [IsCitizen, IsValid_eq]
      simp only [Option.some.injEq, decide_eq_true_eq] at h
      simp [h]
  refine ⟨by rw [IsValid_eq]; rfl, hG, hC, hB, ?_, ?_, ?_, ?_⟩
  · obtain ⟨d, hd⟩ := Option.isSome_iff_exists.mp hB
    obtain ⟨g, hg⟩ := Option.isSome_iff_exists.mp hG
    obtain ⟨c, hc⟩ := Option.isSome_iff_exists.mp hC
    rw [Parse, IsValid_eq, hd, hg, hc]
    by_cases h : id.length = 13 ∧ luhnRev id.reverse false % 10 = 0 <;> simp [h]
  · intro n sum alternate hn
    exact loop_isSome id n hn sum alternate
  · intro i hi
    simp [index, hi]
  · intro hv
    have hl := length_of_valid hv
    exact ⟨hl, slice_isSome id 6 7 (by omega) (by omega),
      slice_isSome id 10 11 (by omega) (by omega), slice_isSome id 0 2 (by omega) (by omega),
      slice_isSome id 2 4 (by omega) (by omega), slice_isSome id 4 6 (by omega) (by omega)⟩

/-- Witness for C19 at the accepted number 9506245120008: it has length 13 and
each slice taken by the extractors exists. -/
theorem no_out_of_range_witness :
    IsValid (lit "9506245120008") = some true ∧
    ((lit "9506245120008").length = 13 ∧
      (slice (lit "9506245120008") 6 7).isSome = true ∧
      (slice (lit "9506245120008") 10 11).isSome = true ∧
      (slice (lit "9506245120008") 0 2).isSome = true ∧
      (slice (lit "9506245120008") 2 4).isSome = true ∧
      (slice (lit "9506245120008") 4 6).isSome = true) ∧
    (index (lit "9506245120008") 12).isSome = true ∧
    (index (lit "950624") 6).isSome = false :=
  ⟨by decide,
    (no_out_of_range ⟨2026, 11, 4⟩ (lit "9506245120008")).2.2.2.2.2.2.2 (by decide),
    (no_out_of_range ⟨2026, 11, 4⟩ (lit "9506245120008")).2.2.2.2.2.2.1 12 (by decide),
    by decide⟩

end Rsaid
